import Mathlib

/-!
Verification of the Sleep Olympics API server bootstrap and request pipeline
(`src/server/index.js`), as a shallow embedding in Lean.

Modelling conventions:
* `process.env` is an `Env` record of optional strings; JavaScript truthiness of
  an env value ("" and undefined are falsy) is `jsTruthyStr`.
* External effects whose success is decided outside this file (JSON.parse of the
  credential blob, loading of the local key file, store authentication, and the
  value produced by the firestoreUtils factory) are oracles in a `World` record.
* The startup sequence `startServer` is a pure function from `Env` and `World`
  to a trace of observable events (log lines, route mounts, the listener bind,
  and process exits).  `process.exit` terminates the process, so nothing is
  appended to the trace after an `Event.exit`.
* The per-request pipeline (from the reflective CORS middleware to the terminal
  error handler) is `handleRequest`, a pure function of the environment, an
  abstract route-collaborator oracle, a clock reading (the string produced by
  `new Date().toISOString()`, handled abstractly), and the request.
-/

namespace SleepOlympics

/-- JavaScript truthiness of an optional string value: `undefined` and `""` are
falsy, everything else is truthy. -/
def jsTruthyStr : Option String → Bool
  | none => false
  | some s => s ≠ ""

/-- JavaScript truthiness of an optional numeric value: `undefined` and `0` are
falsy. -/
def jsTruthyNat : Option Nat → Bool
  | none => false
  | some n => n ≠ 0

/-- The recognized part of `process.env`. -/
structure Env where
  NODE_ENV : Option String
  FIREBASE_SERVICE_ACCOUNT : Option String
  PORT : Option String
  ALLOWED_ORIGINS : Option String
  DEV_ALLOWED_ORIGINS : Option String
  npm_package_version : Option String
deriving DecidableEq, Repr

/-- Where the Firebase service-account credential comes from. -/
inductive CredentialSource where
  | envBlob (blob : String)
  | localFile (path : String)
deriving DecidableEq, Repr

/-- Credential-source selection of `initializeFirebaseAdmin`
(`index.js` lines 23-29): when `process.env.NODE_ENV` is exactly `"production"`
and `process.env.FIREBASE_SERVICE_ACCOUNT` is truthy, the blob is parsed with
`JSON.parse`; otherwise the local file `./serviceAccountKey.json` is loaded. -/
def serviceAccountSource (env : Env) : CredentialSource :=
  if env.NODE_ENV = some "production" ∧ jsTruthyStr env.FIREBASE_SERVICE_ACCOUNT then
    CredentialSource.envBlob (env.FIREBASE_SERVICE_ACCOUNT.getD "")
  else
    CredentialSource.localFile "./serviceAccountKey.json"

/-- The data-access facade value produced by applying the firestoreUtils
factory to the store handle, abstracted by the observations the bootstrap makes
of it: its `Object.keys` surface and whether its `queryDocuments` member is a
function. -/
structure Facade where
  methods : List String
  queryDocumentsIsFun : Bool
deriving DecidableEq, Repr

/-- Oracles for the external effects of startup. -/
structure World where
  /-- Whether `JSON.parse` of the env credential blob succeeds. -/
  blobParses : Bool
  /-- Whether loading the local key file `./serviceAccountKey.json` succeeds. -/
  localKeyOk : Bool
  /-- Whether `admin.credential.cert` and `admin.initializeApp` succeed
  (store authentication). -/
  certOk : Bool
  /-- The firestoreUtils facade value; `none` models a falsy value. -/
  facade : Option Facade
deriving DecidableEq, Repr

/-- Observable startup events. -/
inductive Event where
  | logInfo (msg : String)
  | logError (msg : String)
  | exit (code : Nat)
  | mountRoute (mountPoint : String)
  | listen (port : String)
deriving DecidableEq, Repr

/-- Whether the selected credential is obtained successfully in `World` `w`. -/
def credentialOk (env : Env) (w : World) : Bool :=
  match serviceAccountSource env with
  | CredentialSource.envBlob _ => w.blobParses
  | CredentialSource.localFile _ => w.localKeyOk

/-- Model of `initializeFirebaseAdmin` (`index.js` lines 19-42): obtain the
credential, authenticate to the store; on any failure inside the `try`, log the
error and call `process.exit(1)`.  Returns whether initialization succeeded
together with the emitted events. -/
def initializeFirebaseAdmin (env : Env) (w : World) : Bool × List Event :=
  if credentialOk env w && w.certOk then
    (true, [Event.logInfo "Firebase Admin initialized successfully"])
  else
    (false, [Event.logError "Error initializing Firebase Admin:", Event.exit 1])

/-- The facade structural check of `startServer` (`index.js` line 71): the
check fails when the facade value is falsy or its `queryDocuments` member is
not a function; it passes otherwise. -/
def facadeCheckPasses : Option Facade → Bool
  | none => false
  | some fa => fa.queryDocumentsIsFun

/-- The six route-group mount points (`index.js` lines 119-124). -/
def routeMountPoints : List String :=
  ["/api/auth", "/api/users", "/api/sleep", "/api/competitions",
   "/api/notifications", "/api/invitations"]

/-- Port resolution, `process.env.PORT || 5000` (`index.js` line 158). -/
def resolvedPort (env : Env) : String :=
  if jsTruthyStr env.PORT then env.PORT.getD "" else "5000"

/-- Model of `startServer` (`index.js` lines 58-166) as an event trace.  A call
to `process.exit(1)` terminates the process, so a trace ending in `Event.exit 1`
has no further events. -/
def startServer (env : Env) (w : World) : List Event :=
  Event.logInfo "Environment variables loaded." ::
  (let init := initializeFirebaseAdmin env w
   init.2 ++
   (if init.1 then
     (if facadeCheckPasses w.facade then
       Event.logInfo "firestoreUtils initialized successfully with methods:" ::
       (routeMountPoints.map Event.mountRoute ++
        [Event.listen (resolvedPort env), Event.logInfo "Server running"])
     else
       [Event.logError "firestoreUtils was not initialized correctly!", Event.exit 1])
    else []))

/-- A startup suffers a fatal initialization failure: the credential could not
be obtained, store authentication failed, or the facade structural check fails. -/
def fatalInitFailure (env : Env) (w : World) : Bool :=
  !(credentialOk env w && w.certOk) || !facadeCheckPasses w.facade

/-! ### The request pipeline -/

/-- An inbound HTTP request as seen by the pipeline under analysis: method,
path, the `Origin` header (if sent), and the request identifier attached by the
logging middleware. -/
structure Request where
  method : String
  path : String
  origin : Option String
  id : String
deriving DecidableEq, Repr

/-- A JSON value, restricted to the shapes the pipeline produces. -/
inductive Json where
  | str (s : String)
  | arr (xs : List String)
deriving DecidableEq, Repr

/-- A response body. -/
inductive Body where
  | empty
  | json (fields : List (String × Json))
  | text (s : String)
deriving DecidableEq, Repr

/-- An HTTP response: status, headers, body. -/
structure HttpResponse where
  status : Nat
  headers : List (String × String)
  body : Body
deriving DecidableEq, Repr

/-- Look up a response header by name. -/
def getHeader (r : HttpResponse) (k : String) : Option String :=
  (r.headers.find? (fun p => p.1 == k)).map Prod.snd

/-- Look up a field of a JSON object body. -/
def getField (fields : List (String × Json)) (k : String) : Option Json :=
  (fields.find? (fun p => p.1 == k)).map Prod.snd

/-- The five headers set unconditionally by the reflective CORS middleware
(`index.js` lines 94-99): `Access-Control-Allow-Origin` is the request Origin
header when truthy, the string `*` otherwise. -/
def corsHeaders (origin : Option String) : List (String × String) :=
  [("Access-Control-Allow-Origin", if jsTruthyStr origin then origin.getD "" else "*"),
   ("Access-Control-Allow-Methods", "GET, POST, PUT, DELETE, OPTIONS"),
   ("Access-Control-Allow-Headers",
    "Content-Type, Authorization, DNT, User-Agent, X-Requested-With, If-Modified-Since, Cache-Control, Range"),
   ("Access-Control-Allow-Credentials", "true"),
   ("Access-Control-Expose-Headers", "Content-Length, Content-Range")]

/-- An error value reaching the terminal handler: `statusCode` and `message`
are arbitrary JS fields (possibly absent, possibly falsy), `stack` is the trace
string every `Error` carries. -/
structure Err where
  statusCode : Option Nat
  message : Option String
  stack : String
deriving DecidableEq, Repr

/-- The terminal error handler (`index.js` lines 142-154): status is
`err.statusCode || 500`; the body has an `error` field holding the error
message when truthy and the fixed fallback string otherwise, a `requestId`
field, plus a `stack` field exactly when `NODE_ENV` differs from `production`.
The CORS headers set earlier on the response object persist. -/
def globalErrorHandler (env : Env) (e : Err) (req : Request) : HttpResponse :=
  { status := if jsTruthyNat e.statusCode then e.statusCode.getD 500 else 500
    headers := corsHeaders req.origin
    body := Body.json
      ([("error", Json.str (if jsTruthyStr e.message then e.message.getD "" else
          "Internal server error")),
        ("requestId", Json.str req.id)] ++
       (if env.NODE_ENV ≠ some "production" then [("stack", Json.str e.stack)] else [])) }

/-- Splitting a string at commas, with the semantics of the JavaScript call
`s.split(",")`: the empty string yields one empty piece, and separators at the
ends yield empty pieces. -/
def jsSplitCommaAux : List Char → List Char → List String
  | [], acc => [String.mk acc.reverse]
  | c :: rest, acc =>
    if c = ',' then String.mk acc.reverse :: jsSplitCommaAux rest []
    else jsSplitCommaAux rest (c :: acc)

/-- JavaScript `s.split(",")`. -/
def jsSplitComma (s : String) : List String := jsSplitCommaAux s.data []

/-- Default production allow-list (`index.js` line 136). -/
def defaultProdOrigins : String := "https://pilves.github.io,https://api.chaidla.ee"

/-- Default development allow-list (`index.js` line 137). -/
def defaultDevOrigins : String := "http://localhost:5173,http://localhost:5000"

/-- The resolved allowed-origins array of the health endpoint
(`index.js` lines 135-137). -/
def resolvedAllowedOrigins (env : Env) : List String :=
  if env.NODE_ENV = some "production" then
    jsSplitComma (if jsTruthyStr env.ALLOWED_ORIGINS then env.ALLOWED_ORIGINS.getD ""
      else defaultProdOrigins)
  else
    jsSplitComma (if jsTruthyStr env.DEV_ALLOWED_ORIGINS then env.DEV_ALLOWED_ORIGINS.getD ""
      else defaultDevOrigins)

/-- Body of the `GET /api/health` response (`index.js` lines 128-138);
`nowIso` is the string produced by `new Date().toISOString()`. -/
def healthBody (env : Env) (req : Request) (nowIso : String) : List (String × Json) :=
  [("status", Json.str "ok"),
   ("message", Json.str "Sleep Olympics API is running"),
   ("environment", Json.str (if jsTruthyStr env.NODE_ENV then env.NODE_ENV.getD ""
     else "development")),
   ("version", Json.str (if jsTruthyStr env.npm_package_version then
     env.npm_package_version.getD "" else "1.0.0")),
   ("timestamp", Json.str nowIso),
   ("corsOrigin", Json.str (if jsTruthyStr req.origin then req.origin.getD ""
     else "No origin header")),
   ("allowedOrigins", Json.arr (resolvedAllowedOrigins env))]

/-- Body of the `GET /api/cors-test` response (`index.js` lines 110-115). -/
def corsTestBody (req : Request) (nowIso : String) : List (String × Json) :=
  [("status", Json.str "ok"),
   ("message", Json.str "CORS is properly configured"),
   ("origin", Json.str (if jsTruthyStr req.origin then req.origin.getD ""
     else "No origin header")),
   ("timestamp", Json.str nowIso)]

/-- What a mounted route collaborator does with a request: produce a response
(status and body), throw an error, or call `next()` and fall through. -/
inductive RouteOutcome where
  | handled (status : Nat) (body : Body)
  | threw (e : Err)
  | passed
deriving DecidableEq, Repr

/-- The route collaborators, abstract: given the mount point and the request,
what the mounted router does. -/
def Collaborators : Type := String → Request → RouteOutcome

/-- Express mount-point matching: a router mounted at path `p` receives exactly
the requests whose path equals `p` or starts with `p` followed by a slash. -/
def mountMatches (mountPoint path : String) : Bool :=
  path == mountPoint || List.isPrefixOf (mountPoint.data ++ ['/']) path.data

/-- The first route-group mount point matching the request path, if any. -/
def matchedMount (path : String) : Option String :=
  routeMountPoints.find? (fun m => mountMatches m path)

/-- Result of running the pipeline on one request: the response, and whether a
mounted route collaborator was invoked. -/
structure PipelineResult where
  response : HttpResponse
  collaboratorReached : Bool
deriving DecidableEq, Repr

/-- The stages of the pipeline after route dispatch: the health endpoint
(`index.js` lines 127-139), else the Express default 404 response.  Headers set
by the CORS middleware persist on the response object. -/
def afterRoutes (env : Env) (nowIso : String) (req : Request) : HttpResponse :=
  if req.method == "GET" && req.path == "/api/health" then
    { status := 200, headers := corsHeaders req.origin,
      body := Body.json (healthBody env req nowIso) }
  else
    { status := 404, headers := corsHeaders req.origin,
      body := Body.text ("Cannot " ++ req.method ++ " " ++ req.path) }

/-- The request pipeline from the reflective CORS middleware onwards
(`index.js` lines 94-154), for a request that passed the earlier external
stages (security, logging, body parsing): set the five CORS headers; answer
`OPTIONS` with an empty 200; then the CORS self-test endpoint, the six mounted
route groups, the health endpoint, the default 404, with thrown errors
translated by the terminal handler. -/
def handleRequest (env : Env) (collab : Collaborators) (nowIso : String)
    (req : Request) : PipelineResult :=
  if req.method == "OPTIONS" then
    { response := { status := 200, headers := corsHeaders req.origin, body := Body.empty },
      collaboratorReached := false }
  else if req.method == "GET" && req.path == "/api/cors-test" then
    { response := { status := 200, headers := corsHeaders req.origin,
                    body := Body.json (corsTestBody req nowIso) },
      collaboratorReached := false }
  else
    match matchedMount req.path with
    | some m =>
      match collab m req with
      | RouteOutcome.handled s b =>
        { response := { status := s, headers := corsHeaders req.origin, body := b },
          collaboratorReached := true }
      | RouteOutcome.threw e =>
        { response := globalErrorHandler env e req, collaboratorReached := true }
      | RouteOutcome.passed =>
        { response := afterRoutes env nowIso req, collaboratorReached := true }
    | none =>
      { response := afterRoutes env nowIso req, collaboratorReached := false }

/-- Look up a field of a JSON response body; `none` when the body is not a
JSON object or the field is missing. -/
def bodyField (b : Body) (k : String) : Option Json :=
  match b with
  | Body.json fields => getField fields k
  | _ => none

/-- The timestamp string carried in a response body, if any. -/
def timestampOf (r : HttpResponse) : Option String :=
  match bodyField r.body "timestamp" with
  | some (Json.str s) => some s
  | _ => none

/-- Strict lexicographic order on character lists. -/
def charsLt : List Char → List Char → Bool
  | [], [] => false
  | [], _ :: _ => true
  | _ :: _, [] => false
  | a :: as, b :: bs => if a < b then true else if b < a then false else charsLt as bs

/-- Strict lexicographic order on strings; on ISO-8601 timestamp strings this
is chronological order. -/
def isoLt (a b : String) : Bool := charsLt a.data b.data

/-- Specification-side reading of the strict-monotonicity claim about a
sequence of responses observed within one process lifetime: any later response
carries a timestamp strictly greater than any earlier one (timestamps compared
as ISO-8601 strings, whose lexicographic order is chronological order). -/
def timestampsStrictlyIncrease (rs : List HttpResponse) : Prop :=
  ∀ (i j : Fin rs.length), (i : Nat) < (j : Nat) →
    ∃ a b, timestampOf (rs.get i) = some a ∧ timestampOf (rs.get j) = some b ∧
      isoLt a b = true

/-! ### General lemmas about the pipeline -/

/-- Every branch of the pipeline leaves exactly the five headers set by the
reflective CORS middleware on the response. -/
theorem handleRequest_headers (env : Env) (collab : Collaborators)
    (nowIso : String) (req : Request) :
    (handleRequest env collab nowIso req).response.headers = corsHeaders req.origin := by
  unfold handleRequest
  split
  · rfl
  · split
    · rfl
    · split
      · split
        · rfl
        · rfl
        · unfold afterRoutes; split <;> rfl
      · unfold afterRoutes; split <;> rfl

/-- A path handled by a mounted route group is not the CORS self-test path. -/
theorem matchedMount_corsTest : matchedMount "/api/cors-test" = none := by decide

/-! ### The claims -/

/-- Claim C3: for every inbound request with method OPTIONS, regardless of path
and of route-collaborator state, the response has status 200, an empty body,
and the CORS headers set, and the request never reaches any route handler. -/
theorem c3_options_short_circuit (env : Env) (collab : Collaborators)
    (nowIso : String) (req : Request) (h : req.method = "OPTIONS") :
    (handleRequest env collab nowIso req).response.status = 200 ∧
    (handleRequest env collab nowIso req).response.body = Body.empty ∧
    (handleRequest env collab nowIso req).response.headers = corsHeaders req.origin ∧
    (handleRequest env collab nowIso req).collaboratorReached = false := by
  obtain ⟨m, p, o, i⟩ := req
  subst h
  exact ⟨rfl, rfl, rfl, rfl⟩

/-- Witness for C3 at a concrete request. -/
theorem c3_witness :
    (⟨"OPTIONS", "/api/users/42", some "http://evil.example", "r1"⟩ : Request).method
        = "OPTIONS" ∧
    (handleRequest ⟨some "production", none, none, none, none, none⟩
        (fun _ _ => RouteOutcome.threw ⟨some 404, some "nope", "tr"⟩) "t0"
        ⟨"OPTIONS", "/api/users/42", some "http://evil.example", "r1"⟩).response.status
        = 200 := by
  refine ⟨rfl, ?_⟩
  exact (c3_options_short_circuit ⟨some "production", none, none, none, none, none⟩
    (fun _ _ => RouteOutcome.threw ⟨some 404, some "nope", "tr"⟩) "t0"
    ⟨"OPTIONS", "/api/users/42", some "http://evil.example", "r1"⟩ rfl).1

/-- Claim C9: every request that reaches the reflective CORS middleware gets a
response carrying all five CORS headers, whatever branch of the pipeline
produced it (preflight, self-test, route collaborator, health, default 404, or
the terminal error handler), because they are set before route dispatch. -/
theorem c9_cors_headers_always (env : Env) (collab : Collaborators)
    (nowIso : String) (req : Request) :
    (getHeader (handleRequest env collab nowIso req).response
      "Access-Control-Allow-Origin").isSome = true ∧
    (getHeader (handleRequest env collab nowIso req).response
      "Access-Control-Allow-Methods").isSome = true ∧
    (getHeader (handleRequest env collab nowIso req).response
      "Access-Control-Allow-Headers").isSome = true ∧
    (getHeader (handleRequest env collab nowIso req).response
      "Access-Control-Allow-Credentials").isSome = true ∧
    (getHeader (handleRequest env collab nowIso req).response
      "Access-Control-Expose-Headers").isSome = true := by
  rw [getHeader, getHeader, getHeader, getHeader, getHeader,
    handleRequest_headers env collab nowIso req]
  unfold corsHeaders
  simp [List.find?]

/-- Claim C5 (amended): for every request, the reflective CORS middleware sets
`Access-Control-Allow-Origin` to the request Origin header value when that
header is present and non-empty, and to the string `*` when it is absent or
empty, together with `Access-Control-Allow-Credentials` set to `true`, and the
response headers are identical in production and non-production modes. -/
theorem c5_reflective_cors (env : Env) (collab : Collaborators) (nowIso : String)
    (req : Request) :
    getHeader (handleRequest env collab nowIso req).response
        "Access-Control-Allow-Origin" =
      some (if jsTruthyStr req.origin then req.origin.getD "" else "*") ∧
    getHeader (handleRequest env collab nowIso req).response
        "Access-Control-Allow-Credentials" = some "true" ∧
    (∀ env₂ : Env, (handleRequest env₂ collab nowIso req).response.headers =
      (handleRequest env collab nowIso req).response.headers) := by
  refine ⟨?_, ?_, ?_⟩
  · rw [getHeader, handleRequest_headers]
    unfold corsHeaders
    simp [List.find?]
  · rw [getHeader, handleRequest_headers]
    unfold corsHeaders
    simp [List.find?]
  · intro env₂
    rw [handleRequest_headers, handleRequest_headers]

/-- Counterexample to claim C5 as stated: a request whose Origin header is
present but empty gets `Access-Control-Allow-Origin` equal to the string `*`,
not to the (empty) Origin header value. -/
theorem c5_counterexample :
    (some "" : Option String).isSome = true ∧
    getHeader (handleRequest ⟨none, none, none, none, none, none⟩
        (fun _ _ => RouteOutcome.passed) "t0"
        ⟨"GET", "/api/health", some "", "r1"⟩).response
        "Access-Control-Allow-Origin" = some "*" ∧
    ("*" : String) ≠ "" := by decide

/-- Claim C2 (amended): every error raised by a route or an earlier middleware
stage reaches the terminal error handler, which responds with HTTP status equal
to the error statusCode field when that field is present and nonzero and with
500 otherwise, and whose response body always contains an error field (the
error message when non-empty, otherwise the fixed fallback string) and the
originating request identifier, and contains a stack field if and only if the
configured mode is not production.  The first conjunct ties the pipeline to the
terminal handler for an error thrown by a mounted route collaborator; the
second settles the envelope shape for every error value the handler can
receive, whatever stage raised it. -/
theorem c2_error_envelope (env : Env) (collab : Collaborators) (nowIso : String)
    (req : Request) (m : String) (e : Err)
    (hmount : matchedMount req.path = some m)
    (hopt : req.method ≠ "OPTIONS")
    (ht : collab m req = RouteOutcome.threw e) :
    (handleRequest env collab nowIso req).response = globalErrorHandler env e req ∧
    (∀ e₂ : Err,
      (globalErrorHandler env e₂ req).status =
        (match e₂.statusCode with
         | some n => if n = 0 then 500 else n
         | none => 500) ∧
      bodyField (globalErrorHandler env e₂ req).body "error" =
        some (Json.str (if jsTruthyStr e₂.message then e₂.message.getD ""
          else "Internal server error")) ∧
      bodyField (globalErrorHandler env e₂ req).body "requestId" =
        some (Json.str req.id) ∧
      ((bodyField (globalErrorHandler env e₂ req).body "stack").isSome
        ↔ env.NODE_ENV ≠ some "production")) := by
  have hpath : req.path ≠ "/api/cors-test" := by
    intro hp
    rw [hp, matchedMount_corsTest] at hmount
    exact Option.noConfusion hmount
  have h1 : (req.method == "OPTIONS") = false := beq_eq_false_iff_ne.mpr hopt
  have h2 : (req.path == "/api/cors-test") = false := beq_eq_false_iff_ne.mpr hpath
  constructor
  · unfold handleRequest
    simp only [h1, h2, Bool.and_false, Bool.false_eq_true, if_false, hmount, ht]
  · intro e₂
    unfold globalErrorHandler bodyField getField
    refine ⟨?_, ?_, ?_, ?_⟩
    · cases hsc : e₂.statusCode with
      | none => simp [jsTruthyNat]
      | some n =>
        by_cases hn : n = 0
        · simp [jsTruthyNat, hn]
        · simp [jsTruthyNat, hn]
    · simp [List.find?]
    · simp [List.find?]
    · by_cases henv : env.NODE_ENV = some "production"
      · simp [henv, List.find?]
      · simp [henv, List.find?]

/-- Counterexample to claim C2 as stated: an error whose statusCode field is
present but equal to 0 is answered with status 500, not with the attached
status code. -/
theorem c2_counterexample :
    (⟨some 0, some "boom", "stacktrace"⟩ : Err).statusCode = some 0 ∧
    (handleRequest ⟨none, none, none, none, none, none⟩
        (fun _ _ => RouteOutcome.threw ⟨some 0, some "boom", "stacktrace"⟩) "t0"
        ⟨"GET", "/api/users/1", none, "r2"⟩).response.status = 500 ∧
    (500 : Nat) ≠ 0 := by decide

/-- Witness for C2 at a concrete 404-throwing collaborator in production mode:
the wire status is 404 and the error field holds the fallback for an
empty-message error. -/
theorem c2_witness :
    matchedMount "/api/users/1" = some "/api/users" ∧
    (handleRequest ⟨some "production", none, none, none, none, none⟩
        (fun _ _ => RouteOutcome.threw ⟨some 404, some "Not found", "tr"⟩) "t0"
        ⟨"GET", "/api/users/1", none, "r9"⟩).response.status = 404 ∧
    bodyField (globalErrorHandler ⟨some "production", none, none, none, none, none⟩
        ⟨some 500, some "", "tr"⟩ ⟨"GET", "/api/users/1", none, "r9"⟩).body "error" =
      some (Json.str "Internal server error") := by
  have h := c2_error_envelope ⟨some "production", none, none, none, none, none⟩
    (fun _ _ => RouteOutcome.threw ⟨some 404, some "Not found", "tr"⟩) "t0"
    ⟨"GET", "/api/users/1", none, "r9"⟩ "/api/users" ⟨some 404, some "Not found", "tr"⟩
    (by decide) (by decide) rfl
  refine ⟨by decide, ?_, ?_⟩
  · rw [h.1, (h.2 ⟨some 404, some "Not found", "tr"⟩).1]
    decide
  · rw [(h.2 ⟨some 500, some "", "tr"⟩).2.1]
    decide

/-- Claim C10: for every error reaching the terminal error handler whose message
field is absent or empty, the error field of the response body equals the fixed
fallback string. -/
theorem c10_fallback_error_message (env : Env) (e : Err) (req : Request)
    (h : e.message = none ∨ e.message = some "") :
    bodyField (globalErrorHandler env e req).body "error" =
      some (Json.str "Internal server error") := by
  have hm : jsTruthyStr e.message = false := by
    rcases h with h | h <;> simp [jsTruthyStr, h]
  unfold globalErrorHandler bodyField getField
  simp [List.find?, hm]

/-- Witness for C10 at a concrete error value with an absent message. -/
theorem c10_witness :
    ((⟨none, none, "tr"⟩ : Err).message = none ∨ (⟨none, none, "tr"⟩ : Err).message = some "") ∧
    bodyField (globalErrorHandler ⟨none, none, none, none, none, none⟩ ⟨none, none, "tr"⟩
        ⟨"GET", "/api/users/1", none, "r3"⟩).body "error" =
      some (Json.str "Internal server error") :=
  ⟨Or.inl rfl,
   c10_fallback_error_message ⟨none, none, none, none, none, none⟩ ⟨none, none, "tr"⟩
     ⟨"GET", "/api/users/1", none, "r3"⟩ (Or.inl rfl)⟩

/-- Claim C6: every GET request to the health path returns status 200 with a
JSON body containing status, message, the configured environment mode, version,
the clock timestamp (the string produced by the ISO-8601 renderer of the
platform clock), the request Origin header (with the fixed placeholder when
absent or empty), and the resolved allowed-origins array, and the
allowed-origins default differs between production and non-production modes. -/
theorem c6_health_response (env : Env) (collab : Collaborators) (nowIso : String)
    (req : Request) (hm : req.method = "GET") (hp : req.path = "/api/health") :
    (handleRequest env collab nowIso req).response.status = 200 ∧
    bodyField (handleRequest env collab nowIso req).response.body "status" =
      some (Json.str "ok") ∧
    bodyField (handleRequest env collab nowIso req).response.body "message" =
      some (Json.str "Sleep Olympics API is running") ∧
    bodyField (handleRequest env collab nowIso req).response.body "environment" =
      some (Json.str (if jsTruthyStr env.NODE_ENV then env.NODE_ENV.getD ""
        else "development")) ∧
    bodyField (handleRequest env collab nowIso req).response.body "version" =
      some (Json.str (if jsTruthyStr env.npm_package_version then
        env.npm_package_version.getD "" else "1.0.0")) ∧
    bodyField (handleRequest env collab nowIso req).response.body "timestamp" =
      some (Json.str nowIso) ∧
    bodyField (handleRequest env collab nowIso req).response.body "corsOrigin" =
      some (Json.str (if jsTruthyStr req.origin then req.origin.getD ""
        else "No origin header")) ∧
    bodyField (handleRequest env collab nowIso req).response.body "allowedOrigins" =
      some (Json.arr (resolvedAllowedOrigins env)) ∧
    resolvedAllowedOrigins ⟨some "production", none, none, none, none, none⟩ ≠
      resolvedAllowedOrigins ⟨some "development", none, none, none, none, none⟩ := by
  obtain ⟨m, p, o, i⟩ := req
  have hm2 : m = "GET" := hm
  have hp2 : p = "/api/health" := hp
  subst hm2
  subst hp2
  exact ⟨rfl, rfl, rfl, rfl, rfl, rfl, rfl, rfl, by decide⟩

/-- Witness for C6 at a concrete production-mode request. -/
theorem c6_witness :
    (⟨"GET", "/api/health", some "http://localhost:5173", "r4"⟩ : Request).method = "GET" ∧
    (handleRequest ⟨some "production", none, none, none, none, none⟩
        (fun _ _ => RouteOutcome.passed) "2025-01-01T07:00:00.000Z"
        ⟨"GET", "/api/health", some "http://localhost:5173", "r4"⟩).response.status = 200 := by
  refine ⟨rfl, ?_⟩
  exact (c6_health_response ⟨some "production", none, none, none, none, none⟩
    (fun _ _ => RouteOutcome.passed) "2025-01-01T07:00:00.000Z"
    ⟨"GET", "/api/health", some "http://localhost:5173", "r4"⟩ rfl rfl).1

/-- Claim C7 (amended): the timestamp of each health response equals the
platform clock reading at the time of that call, so timestamps strictly
increase across repeated calls exactly when the successive clock readings do;
two calls observing the same clock reading (the same millisecond) yield equal
timestamps. -/
theorem c7_timestamp_is_clock (env : Env) (collab : Collaborators)
    (req : Request) (now₁ now₂ : String)
    (hm : req.method = "GET") (hp : req.path = "/api/health") :
    timestampOf (handleRequest env collab now₁ req).response = some now₁ ∧
    (now₁ = now₂ →
      timestampOf (handleRequest env collab now₁ req).response =
        timestampOf (handleRequest env collab now₂ req).response) := by
  obtain ⟨m, p, o, i⟩ := req
  have hm2 : m = "GET" := hm
  have hp2 : p = "/api/health" := hp
  subst hm2
  subst hp2
  exact ⟨rfl, fun h => by rw [h]⟩

/-- Witness for C7 at a concrete request and clock reading. -/
theorem c7_witness :
    timestampOf (handleRequest ⟨none, none, none, none, none, none⟩
        (fun _ _ => RouteOutcome.passed) "2025-01-01T07:00:00.000Z"
        ⟨"GET", "/api/health", none, "r5"⟩).response =
      some "2025-01-01T07:00:00.000Z" :=
  (c7_timestamp_is_clock ⟨none, none, none, none, none, none⟩
    (fun _ _ => RouteOutcome.passed) ⟨"GET", "/api/health", none, "r5"⟩
    "2025-01-01T07:00:00.000Z" "2025-01-01T07:00:00.000Z" rfl rfl).1

/-- Counterexample to claim C7 as stated: two health calls in one process
lifetime that observe the same clock reading (the clock has millisecond
resolution, so two requests inside the same millisecond do) produce equal
timestamps, so the later timestamp is not strictly greater than the earlier
one. -/
theorem c7_counterexample :
    ¬ timestampsStrictlyIncrease
      [(handleRequest ⟨none, none, none, none, none, none⟩
          (fun _ _ => RouteOutcome.passed) "2025-01-01T07:00:00.000Z"
          ⟨"GET", "/api/health", none, "r6"⟩).response,
       (handleRequest ⟨none, none, none, none, none, none⟩
          (fun _ _ => RouteOutcome.passed) "2025-01-01T07:00:00.000Z"
          ⟨"GET", "/api/health", none, "r7"⟩).response] := by
  intro h
  obtain ⟨a, b, ha, hb, hab⟩ := h ⟨0, by decide⟩ ⟨1, by decide⟩ (by decide)
  have ha1 : "2025-01-01T07:00:00.000Z" = a := Option.some.inj ha
  have hb1 : "2025-01-01T07:00:00.000Z" = b := Option.some.inj hb
  rw [← ha1, ← hb1] at hab
  exact absurd hab (by decide)

/-- Helper fact used by nothing below: the order `isoLt` is irreflexive, so the
counterexample above is genuinely about equal timestamps. -/
theorem isoLt_irrefl (s : String) : isoLt s s = false := by
  unfold isoLt
  induction s.data with
  | nil => rfl
  | cons c cs ih =>
    unfold charsLt
    simp [ih, lt_irrefl]

/-- Claim C1: for every fatal initialization failure (credential failure, store
authentication failure, or failure of the facade structural check), the startup
trace logs a diagnostic and contains a process exit with nonzero code, while
containing no route-group mount and no listener bind: no port is ever bound
after such a failure. -/
theorem c1_fatal_init_exits_before_mount_and_listen (env : Env) (w : World)
    (h : fatalInitFailure env w = true) :
    Event.exit 1 ∈ startServer env w ∧
    (∃ msg, Event.logError msg ∈ startServer env w) ∧
    (∀ mountPoint, Event.mountRoute mountPoint ∉ startServer env w) ∧
    (∀ port, Event.listen port ∉ startServer env w) ∧
    (1 : Nat) ≠ 0 := by
  unfold fatalInitFailure at h
  cases hc : (credentialOk env w && w.certOk) with
  | false =>
    have htr : startServer env w =
        [Event.logInfo "Environment variables loaded.",
         Event.logError "Error initializing Firebase Admin:", Event.exit 1] := by
      simp [startServer, initializeFirebaseAdmin, hc]
    rw [htr]
    refine ⟨by decide, ⟨"Error initializing Firebase Admin:", by decide⟩, ?_, ?_, by decide⟩
    · intro mountPoint
      simp
    · intro port
      simp
  | true =>
    have hf : facadeCheckPasses w.facade = false := by
      rw [hc] at h
      simpa using h
    have htr : startServer env w =
        [Event.logInfo "Environment variables loaded.",
         Event.logInfo "Firebase Admin initialized successfully",
         Event.logError "firestoreUtils was not initialized correctly!", Event.exit 1] := by
      simp [startServer, initializeFirebaseAdmin, hc, hf]
    rw [htr]
    refine ⟨by decide, ⟨"firestoreUtils was not initialized correctly!", by decide⟩,
      ?_, ?_, by decide⟩
    · intro mountPoint
      simp
    · intro port
      simp

/-- Witness for C1 at a concrete development-mode environment whose local key
file is missing. -/
theorem c1_witness :
    fatalInitFailure ⟨none, none, none, none, none, none⟩
        ⟨true, false, true, some ⟨["queryDocuments"], true⟩⟩ = true ∧
    Event.exit 1 ∈ startServer ⟨none, none, none, none, none, none⟩
        ⟨true, false, true, some ⟨["queryDocuments"], true⟩⟩ :=
  ⟨by decide,
   (c1_fatal_init_exits_before_mount_and_listen ⟨none, none, none, none, none, none⟩
     ⟨true, false, true, some ⟨["queryDocuments"], true⟩⟩ (by decide)).1⟩

/-- Claim C4 (amended): credential-source selection is decided exactly by the
mode and the blob: when the mode is production and the externally supplied
credential blob is present and non-empty, the blob is the credential source;
in every other case the credential is loaded from the fixed relative local
file path. -/
theorem c4_credential_source (env : Env) :
    (env.NODE_ENV = some "production" → jsTruthyStr env.FIREBASE_SERVICE_ACCOUNT = true →
      serviceAccountSource env =
        CredentialSource.envBlob (env.FIREBASE_SERVICE_ACCOUNT.getD "")) ∧
    (¬ (env.NODE_ENV = some "production" ∧ jsTruthyStr env.FIREBASE_SERVICE_ACCOUNT = true) →
      serviceAccountSource env = CredentialSource.localFile "./serviceAccountKey.json") := by
  constructor
  · intro h1 h2
    unfold serviceAccountSource
    rw [if_pos ⟨h1, h2⟩]
  · intro h
    unfold serviceAccountSource
    rw [if_neg ?_]
    intro hc
    exact h ⟨hc.1, hc.2⟩

/-- Witness for C4: in production mode with a non-empty blob the blob is
selected; in development mode the local file is selected. -/
theorem c4_witness :
    serviceAccountSource ⟨some "production", some "x", none, none, none, none⟩ =
      CredentialSource.envBlob "x" ∧
    serviceAccountSource ⟨some "development", some "x", none, none, none, none⟩ =
      CredentialSource.localFile "./serviceAccountKey.json" :=
  ⟨(c4_credential_source ⟨some "production", some "x", none, none, none, none⟩).1
      rfl (by decide),
   (c4_credential_source ⟨some "development", some "x", none, none, none, none⟩).2
      (by decide)⟩

/-- Counterexample to claim C4 as stated: in production mode with the credential
blob present but empty (an environment variable set to the empty string), the
code selects the local file, not the blob. -/
theorem c4_counterexample :
    (⟨some "production", some "", none, none, none, none⟩ : Env).FIREBASE_SERVICE_ACCOUNT.isSome
      = true ∧
    serviceAccountSource ⟨some "production", some "", none, none, none, none⟩ =
      CredentialSource.localFile "./serviceAccountKey.json" := by decide

/-- Claim C8: the facade structural check passes for exactly those facade values
that are truthy and whose queryDocuments member is a function, and a facade
exposing nothing but that member lets startup proceed all the way to the
listener bind: no other named operation is required. -/
theorem c8_facade_check_queryDocuments_only (env : Env) (w : World) (ms : List String)
    (hcred : credentialOk env w = true) (hcert : w.certOk = true)
    (hfac : w.facade = some ⟨ms, true⟩) :
    (∀ f : Option Facade, facadeCheckPasses f = true ↔
      ∃ fa : Facade, f = some fa ∧ fa.queryDocumentsIsFun = true) ∧
    Event.listen (resolvedPort env) ∈ startServer env w := by
  constructor
  · intro f
    cases f with
    | none => simp [facadeCheckPasses]
    | some fa => simp [facadeCheckPasses]
  · have hb : (credentialOk env w && w.certOk) = true := by
      rw [hcred, hcert]
      rfl
    simp [startServer, initializeFirebaseAdmin, hb, hfac, facadeCheckPasses,
      routeMountPoints]

/-- Witness for C8: a facade exposing an empty method surface apart from a
functional queryDocuments member reaches the listener bind on port 5000. -/
theorem c8_witness :
    Event.listen "5000" ∈ startServer ⟨none, none, none, none, none, none⟩
      ⟨true, true, true, some ⟨[], true⟩⟩ :=
  (c8_facade_check_queryDocuments_only ⟨none, none, none, none, none, none⟩
    ⟨true, true, true, some ⟨[], true⟩⟩ [] (by decide) rfl rfl).2

end SleepOlympics
